import Mathlib

/-!
Shallow embedding of the anomaly-detection pipeline of
`src/app.py` (function `load_and_model_data` and the derived views used by
the dashboard).  Data values (Python floats) are idealised as rationals;
quantities produced through a square root (standard deviations, scaled
features) live in the reals.  The three external statistical fits
(sklearn `IsolationForest.fit_predict`, statsmodels `STL(...).fit().resid`,
Prophet's in-sample prediction interval) are modelled as abstract function
parameters, while every piece of logic written in `app.py` itself — the
column rename, the standardisation, the flag computations, the count, the
drop of the raw label column, and the filtered/sorted views — is embedded
concretely.
-/

namespace AnomalyApp

/-- One row of the cleaned quarterly panel after the rename of
`app.py` lines 42-50: a period key (date) and the four canonical
economic fields. -/
structure Row where
  date : ℕ
  gdp : ℚ
  corporate_credit : ℚ
  household_credit : ℚ
  total_debt : ℚ
deriving DecidableEq

instance : Inhabited Row := ⟨⟨0, 0, 0, 0, 0⟩⟩

/-- The four monitored fields, `features = ["gdp", "corporate_credit",
"household_credit", "total_debt"]` of `app.py` line 55. -/
inductive Field where
  | gdp
  | corporate_credit
  | household_credit
  | total_debt
deriving DecidableEq

/-- Column access `df[col]` for a monitored field. -/
def Field.val : Field → Row → ℚ
  | .gdp => Row.gdp
  | .corporate_credit => Row.corporate_credit
  | .household_credit => Row.household_credit
  | .total_debt => Row.total_debt

/-- The feature list of `app.py` line 55, in source order. -/
def features : List Field :=
  [Field.gdp, Field.corporate_credit, Field.household_credit, Field.total_debt]

/-- The column of a field over the whole panel (`df[col]`). -/
def colOf (P : List Row) (f : Field) : List ℚ := P.map f.val

/-- Column mean, as computed by sklearn StandardScaler / pandas. -/
def qmean (xs : List ℚ) : ℚ := xs.sum / xs.length

/-- Population variance (ddof = 0), as used by sklearn StandardScaler. -/
def popVar (xs : List ℚ) : ℚ :=
  ((xs.map fun x => (x - qmean xs) ^ 2).sum) / xs.length

/-- sklearn StandardScaler scale: `sqrt(var)`, with a zero scale replaced
by 1 (sklearn `_handle_zeros_in_scale`) — the scaler never fails on a
zero-variance column. -/
noncomputable def scaleOf (xs : List ℚ) : ℝ :=
  if Real.sqrt (popVar xs) = 0 then 1 else Real.sqrt (popVar xs)

/-- One standardised column of `scaler.fit_transform(df[features])`
(`app.py` lines 56-57): centre by the mean, divide by the scale. -/
noncomputable def standardizeCol (xs : List ℚ) : List ℝ :=
  xs.map fun x : ℚ => ((x : ℝ) - ((qmean xs : ℚ) : ℝ)) / scaleOf xs

/-- The standardised feature matrix `X_scaled`, one row of four reals per
period (`app.py` line 57). -/
noncomputable def scaledMatrix (P : List Row) : List (List ℝ) :=
  (List.range P.length).map fun i =>
    features.map fun f => (standardizeCol (colOf P f)).getD i 0

/-- Raw isolation-forest labels `iso_model.fit_predict(X_scaled)`
(`app.py` lines 59-64): the fitted scorer is external (sklearn); it is
modelled as an abstract function of the seed (`random_state=42`) and the
scaled matrix, returning one label in {-1, 1} per period. -/
noncomputable def isoRawLabels (iso : ℕ → List (List ℝ) → List ℤ)
    (P : List Row) : List ℤ :=
  iso 42 (scaledMatrix P)

/-- The label-to-flag map of `app.py` lines 66-68:
`-1` (anomaly) becomes 1, anything else becomes 0. -/
def isoFlagOf (x : ℤ) : ℕ := if x = -1 then 1 else 0

/-- The multivariate detector's flag column, seed made explicit:
standardise, score, map labels to flags (`app.py` lines 56-68). -/
noncomputable def isoDetFlags (iso : ℕ → List (List ℝ) → List ℤ)
    (seed : ℕ) (P : List Row) : List ℕ :=
  (iso seed (scaledMatrix P)).map isoFlagOf

/-- Sample standard deviation with ddof = 1, the semantics of pandas
`Series.std()` used for the STL residual threshold (`app.py` line 76). -/
noncomputable def sampleStd (xs : List ℝ) : ℝ :=
  Real.sqrt (((xs.map fun x => (x - xs.sum / xs.length) ^ 2).sum) /
    ((xs.length : ℝ) - 1))

/-- The residual series of one monitored field:
`STL(df[col], period=4).fit().resid` (`app.py` lines 73-75).  The STL fit
itself is external (statsmodels) and is an abstract parameter `resid`. -/
noncomputable def stlResidOf (resid : List ℚ → List ℝ) (P : List Row)
    (f : Field) : List ℝ :=
  resid (colOf P f)

/-- The per-field outlier test of `app.py` lines 76-78: the absolute STL
residual of field `f` at period `i` strictly exceeds
`2.5 * residuals.std()`, the threshold computed from the full residual
series of that field. -/
def stlCond (resid : List ℚ → List ℝ) (P : List Row)
    (f : Field) (i : ℕ) : Prop :=
  |(stlResidOf resid P f).getD i 0| >
    2.5 * sampleStd (stlResidOf resid P f)

open Classical in
/-- One iteration of the STL loop body (`app.py` lines 73-79) for one
field: set the flag of every period whose residual exceeds the field's
threshold, keep the previous flag value elsewhere. -/
noncomputable def stlStep (resid : List ℚ → List ℝ) (P : List Row)
    (flags : List ℕ) (f : Field) : List ℕ :=
  (List.range P.length).map fun i =>
    if stlCond resid P f i then 1 else flags.getD i 0

/-- The STL flag loop of `app.py` lines 71-79: start from an all-zero
column (`df["anomaly_stl"] = 0`) and run the per-field update once for
each of the four monitored fields. -/
noncomputable def stlFlagsLoop (resid : List ℚ → List ℝ)
    (P : List Row) : List ℕ :=
  features.foldl (stlStep resid P) (List.replicate P.length 0)

/-- Pipeline failure modes.  `insufficientHistory` models the ValueError
raised by statsmodels `STL` when the series has fewer than two complete
cycles (`2 * period = 8` observations for `period=4`); the spec calls it
`InsufficientHistoryError`. -/
inductive PipeFailure where
  | insufficientHistory
deriving DecidableEq

/-- The decomposition detector: the statsmodels `STL` constructor rejects a
series with fewer than `2 * period` observations, so with `period=4`
(`app.py` line 73) fewer than 8 periods raise before any flag is
produced; otherwise the flag loop runs. -/
noncomputable def stlDetect (resid : List ℚ → List ℝ)
    (P : List Row) : Except PipeFailure (List ℕ) :=
  if P.length < 2 * 4 then .error .insufficientHistory
  else .ok (stlFlagsLoop resid P)

/-- The forecast-deviation flag column of `app.py` lines 82-101: the
Prophet fit-and-predict on the (date, gdp) pairs is external and is
modelled by the abstract `bounds`, returning the in-sample
`(yhat_lower, yhat_upper)` columns; a period is flagged when the realised
gdp value is strictly below the lower bound or strictly above the upper
bound. -/
def prophetFlags (bounds : List (ℕ × ℚ) → List ℚ × List ℚ)
    (P : List Row) : List ℕ :=
  (List.range P.length).map fun i =>
    if (P.getD i default).gdp <
         (bounds (P.map fun r => (r.date, r.gdp))).1.getD i 0 ∨
       (P.getD i default).gdp >
         (bounds (P.map fun r => (r.date, r.gdp))).2.getD i 0
    then 1 else 0

/-- A row of the dataframe just before the `return`: the panel fields plus
the raw isolation-forest label and the three flags and the count
(`app.py` lines 64-106). -/
structure FullRow where
  toRow : Row
  anomaly_isoforest_raw : ℤ
  anomaly_isoforest : ℕ
  anomaly_stl : ℕ
  anomaly_prophet : ℕ
  anomaly_count : ℕ
deriving DecidableEq

/-- A row of the returned table, after
`df.drop(columns=["anomaly_isoforest_raw"])` (`app.py` line 109):
exactly the four economic fields, the date, the three flags and the
count — no raw label field. -/
structure OutRow where
  date : ℕ
  gdp : ℚ
  corporate_credit : ℚ
  household_credit : ℚ
  total_debt : ℚ
  anomaly_isoforest : ℕ
  anomaly_stl : ℕ
  anomaly_prophet : ℕ
  anomaly_count : ℕ
deriving DecidableEq

instance : Inhabited OutRow := ⟨⟨0, 0, 0, 0, 0, 0, 0, 0, 0⟩⟩

/-- The column drop of `app.py` line 109: forget the raw label, keep
everything else unchanged. -/
def dropRaw (r : FullRow) : OutRow :=
  ⟨r.toRow.date, r.toRow.gdp, r.toRow.corporate_credit,
   r.toRow.household_credit, r.toRow.total_debt,
   r.anomaly_isoforest, r.anomaly_stl, r.anomaly_prophet, r.anomaly_count⟩

/-- Assemble the pre-drop dataframe rows from the panel, the raw labels
column and the stl/prophet flag columns; the iso flag column is the map of
`isoFlagOf` over the raw labels (`app.py` lines 64-68) and
`anomaly_count` is the row-wise sum of the three flag columns
(`app.py` lines 104-106). -/
def buildRows (P : List Row) (raw : List ℤ) (stlF : List ℕ)
    (proF : List ℕ) : List FullRow :=
  (List.range P.length).map fun i =>
    ⟨P.getD i default, raw.getD i 1, (raw.map isoFlagOf).getD i 0,
     stlF.getD i 0, proF.getD i 0,
     (raw.map isoFlagOf).getD i 0 + stlF.getD i 0 + proF.getD i 0⟩

/-- The whole of `load_and_model_data` up to (not including) the drop on
line 109; the only failure embedded is the STL history guard, which in the
source aborts the whole computation. -/
noncomputable def pipelineFull (iso : ℕ → List (List ℝ) → List ℤ)
    (resid : List ℚ → List ℝ) (bounds : List (ℕ × ℚ) → List ℚ × List ℚ)
    (P : List Row) : Except PipeFailure (List FullRow) :=
  (stlDetect resid P).map fun stlF =>
    buildRows P (isoRawLabels iso P) stlF (prophetFlags bounds P)

/-- The table `load_and_model_data` returns on success (`app.py`
line 109): the full rows with the raw label column dropped. -/
noncomputable def outTable (iso : ℕ → List (List ℝ) → List ℤ)
    (resid : List ℚ → List ℝ) (bounds : List (ℕ × ℚ) → List ℚ × List ℚ)
    (P : List Row) : List OutRow :=
  (buildRows P (isoRawLabels iso P) (stlFlagsLoop resid P)
    (prophetFlags bounds P)).map dropRaw

/-- `load_and_model_data`: the modelled pipeline, returning the final
dataframe or the propagated detector failure. -/
noncomputable def loadAndModel (iso : ℕ → List (List ℝ) → List ℤ)
    (resid : List ℚ → List ℝ) (bounds : List (ℕ × ℚ) → List ℚ × List ℚ)
    (P : List Row) : Except PipeFailure (List OutRow) :=
  (pipelineFull iso resid bounds P).map (List.map dropRaw)

/-- `df_consensus = df_final[df_final["anomaly_count"] > 1]`
(`app.py` line 209). -/
def dfConsensus (out : List OutRow) : List OutRow :=
  out.filter fun r => decide (1 < r.anomaly_count)

/-- `df_final[df_final["anomaly_count"] > 0]` (`app.py` line 250). -/
def dfFlagged (out : List OutRow) : List OutRow :=
  out.filter fun r => decide (0 < r.anomaly_count)

/-- The key order of `sort_values("anomaly_count", ascending=False)`. -/
def countDescR (a b : OutRow) : Prop := b.anomaly_count ≤ a.anomaly_count

instance : DecidableRel countDescR := fun a b =>
  inferInstanceAs (Decidable (b.anomaly_count ≤ a.anomaly_count))

/-- The key order of `.sort_index()` on the date index. -/
def dateAscR (a b : OutRow) : Prop := a.date ≤ b.date

instance : DecidableRel dateAscR := fun a b =>
  inferInstanceAs (Decidable (a.date ≤ b.date))

/-- The anomaly-table view of `app.py` lines 250-265: filter the flagged
rows, sort them by `anomaly_count` descending, then sort the result again
by the date index ascending.  (pandas' unstable quicksort is modelled by a
sort; because dates are the unique index keys, the second sort determines
the final order completely, whatever the first sort produced.) -/
def dfAnomaliesView (out : List OutRow) : List OutRow :=
  List.insertionSort dateAscR (List.insertionSort countDescR (dfFlagged out))

/-- The ordering the spec claims for the anomaly table: count strictly
descending first, date ascending among equal counts. -/
def claimOrder (a b : OutRow) : Prop :=
  b.anomaly_count < a.anomaly_count ∨
    (a.anomaly_count = b.anomaly_count ∧ a.date ≤ b.date)

instance : DecidableRel claimOrder := fun a b =>
  inferInstanceAs (Decidable (b.anomaly_count < a.anomaly_count ∨
    (a.anomaly_count = b.anomaly_count ∧ a.date ≤ b.date)))

/-! The load step (`app.py` lines 34-50).

`pd.read_csv(..., index_col=0, parse_dates=True)` followed by
`df.rename(columns={...})`.  A raw source is modelled as its index cells
plus a list of named columns.  pandas `rename` silently skips mapping
keys that are not present and keeps every column whose name is not a
mapping key; `errors` defaults to `"ignore"`, so nothing is validated
and nothing is dropped.  `parse_dates=True` is lenient: when any index
cell fails to parse, the index is simply left as raw strings. -/

/-- Raw source column name, `app.py` line 44. -/
def rawGdpName : String := "GDP_YoY_Growth"

/-- Raw source column name, `app.py` line 45. -/
def rawCorpName : String := "Total_Corporate_Credit"

/-- Raw source column name, `app.py` line 46. -/
def rawHouseName : String := "Total_Household_Credit"

/-- Raw source column name, `app.py` line 47. -/
def rawDebtName : String := "Total_Debt"

/-- Canonical field name after the rename. -/
def canonGdpName : String := "gdp"

/-- Canonical field name after the rename. -/
def canonCorpName : String := "corporate_credit"

/-- Canonical field name after the rename. -/
def canonHouseName : String := "household_credit"

/-- Canonical field name after the rename. -/
def canonDebtName : String := "total_debt"

/-- The static raw-name-to-canonical-name mapping of `app.py`
lines 42-50. -/
def renameMap : List (String × String) :=
  [(rawGdpName, canonGdpName), (rawCorpName, canonCorpName),
   (rawHouseName, canonHouseName), (rawDebtName, canonDebtName)]

/-- pandas `rename` on one column name: translate it when it is a key of
the mapping, keep it unchanged otherwise. -/
def applyRename (n : String) : String :=
  match List.lookup n renameMap with
  | some c => c
  | none => n

/-- The rename of `app.py` lines 42-50 applied to a whole raw source:
every column is kept, and only names that are mapping keys change.  It is
total — there is no validation and no failure path. -/
def loadStep (raw : List (String × List ℚ)) : List (String × List ℚ) :=
  raw.map fun p => (applyRename p.1, p.2)

/-- pandas `read_csv(..., parse_dates=True)` index handling: when every
index cell parses, the index becomes dates; when any cell fails, the
index is kept as the raw strings, with no error raised. -/
def parseIndexLenient (parse : String → Option ℕ)
    (cells : List String) : List ℕ ⊕ List String :=
  if cells.all fun c => (parse c).isSome
  then Sum.inl (cells.filterMap parse)
  else Sum.inr cells

/-- Failure of a pandas column selection `df[names]`: a KeyError when a
requested column is absent. -/
inductive SelectFailure where
  | keyNotFound
deriving DecidableEq

/-- The canonical feature-column names selected by `df[features]`
(`app.py` lines 55-57). -/
def canonFeatureNames : List String :=
  [canonGdpName, canonCorpName, canonHouseName, canonDebtName]

/-- pandas `df[names]`: the selected columns when all names are present,
a KeyError otherwise — this selection, on `app.py` line 57, is the first
place a missing required column actually fails. -/
def selectCols (frame : List (String × List ℚ)) (names : List String) :
    Except SelectFailure (List (List ℚ)) :=
  if names.all fun n => (frame.map Prod.fst).contains n
  then .ok (names.map fun n => (List.lookup n frame).getD [])
  else .error .keyNotFound

/-! Concrete inputs used by witnesses and counterexamples. -/

/-- An unmapped extra column name present in a test source. -/
def extraColName : String := "Unemployment"

/-- A raw source missing the required gdp column and carrying an extra,
unmapped column. -/
def rawMissingGdp : List (String × List ℚ) :=
  [(rawCorpName, [1, 2]), (rawHouseName, [3, 4]), (rawDebtName, [5, 6]),
   (extraColName, [7, 8])]

/-- A date parser on which every cell fails. -/
def noParse : String → Option ℕ := fun _ => none

/-- An unparsable raw date index. -/
def badCells : List String := ["not-a-date", "also-not-a-date"]

/-- An isolation-forest scorer that labels every point normal. -/
def isoAllNormal : ℕ → List (List ℝ) → List ℤ := fun _ m => m.map fun _ => 1

/-- An STL fit whose residual is identically zero. -/
noncomputable def residZero : List ℚ → List ℝ :=
  fun xs => List.replicate xs.length 0

/-- A Prophet interval wide enough to flag nothing. -/
def boundsWide : List (ℕ × ℚ) → List ℚ × List ℚ :=
  fun l => (l.map fun _ => -1000, l.map fun _ => 1000)

/-- A Prophet interval whose lower bound equals the realised value
exactly, with upper bound above it. -/
def boundsTouchLower : List (ℕ × ℚ) → List ℚ × List ℚ :=
  fun l => (l.map fun x => x.2, l.map fun x => x.2 + 1)

/-- A three-quarter panel whose gdp column is constant (zero variance). -/
def pConst : List Row :=
  [⟨0, 5, 1, 2, 3⟩, ⟨1, 5, 2, 3, 4⟩, ⟨2, 5, 3, 4, 5⟩]

/-- The constant gdp column of `pConst`. -/
def constCol : List ℚ := [5, 5, 5]

/-- An eight-quarter panel (two full seasonal cycles). -/
def P8 : List Row := (List.range 8).map fun i => ⟨i, (i : ℚ), 1, 2, 3⟩

/-- A flagged output table of two periods: the earlier date has
`anomaly_count = 1`, the later date has `anomaly_count = 2`. -/
def rowEarlyLow : OutRow := ⟨0, 0, 0, 0, 0, 1, 0, 0, 1⟩

/-- The later, higher-count row of the two-row table. -/
def rowLateHigh : OutRow := ⟨1, 0, 0, 0, 0, 1, 1, 0, 2⟩

/-- The two-row flagged table fed to the anomaly view. -/
def tabTwo : List OutRow := [rowEarlyLow, rowLateHigh]

/-! Helper lemmas. -/

theorem getD_range_map {α : Type} (f : ℕ → α) (n i : ℕ) (d : α) :
    ((List.range n).map f).getD i d = if i < n then f i else d := by
  rcases Nat.lt_or_ge i n with h | h
  · simp [List.getD_eq_getElem?_getD, List.getElem?_map, List.getElem?_range h, h]
  · have hn : (List.range n)[i]? = none :=
      List.getElem?_eq_none (by simpa using h)
    simp [List.getD_eq_getElem?_getD, List.getElem?_map, hn, Nat.not_lt.mpr h]

theorem getD_le_one (l : List ℕ) (i : ℕ) (h : ∀ x ∈ l, x ≤ 1) :
    l.getD i 0 ≤ 1 := by
  rcases Nat.lt_or_ge i l.length with hi | hi
  · rw [List.getD_eq_getElem?_getD, List.getElem?_eq_getElem hi]
    exact h _ (List.getElem_mem hi)
  · rw [List.getD_eq_getElem?_getD, List.getElem?_eq_none (by simpa using hi)]
    simp

theorem getD_replicate_zero (n i : ℕ) :
    (List.replicate n (0 : ℕ)).getD i 0 = 0 := by
  simp only [List.getD_eq_getElem?_getD, List.getElem?_replicate]
  split <;> simp

theorem isoFlagOf_le_one (x : ℤ) : isoFlagOf x ≤ 1 := by
  unfold isoFlagOf
  split <;> simp

theorem isoFlags_getD_le_one (raw : List ℤ) (i : ℕ) :
    (raw.map isoFlagOf).getD i 0 ≤ 1 := by
  refine getD_le_one _ _ ?_
  intro x hx
  rcases List.mem_map.mp hx with ⟨y, -, rfl⟩
  exact isoFlagOf_le_one y

theorem prophetFlags_getD_le_one (bounds : List (ℕ × ℚ) → List ℚ × List ℚ)
    (P : List Row) (i : ℕ) :
    (prophetFlags bounds P).getD i 0 ≤ 1 := by
  rw [prophetFlags, getD_range_map]
  split
  · split <;> simp
  · simp

open Classical in
theorem stlStep_getD_lt (resid : List ℚ → List ℝ) (P : List Row)
    (flags : List ℕ) (f : Field) (i : ℕ) (hi : i < P.length) :
    (stlStep resid P flags f).getD i 0 =
      if stlCond resid P f i then 1 else flags.getD i 0 := by
  rw [stlStep, getD_range_map, if_pos hi]

open Classical in
theorem stlFold_getD (resid : List ℚ → List ℝ) (P : List Row) (i : ℕ)
    (hi : i < P.length) (fs : List Field) :
    ∀ flags : List ℕ,
      (fs.foldl (stlStep resid P) flags).getD i 0 =
        if ∃ f ∈ fs, stlCond resid P f i then 1 else flags.getD i 0 := by
  induction fs with
  | nil => intro flags; simp
  | cons f t ih =>
    intro flags
    rw [List.foldl_cons, ih, stlStep_getD_lt resid P flags f i hi]
    by_cases hf : stlCond resid P f i
    · by_cases ht : ∃ g ∈ t, stlCond resid P g i
      · simp [hf, ht]
      · simp [hf, ht]
    · by_cases ht : ∃ g ∈ t, stlCond resid P g i
      · simp [hf, ht]
      · simp [hf, ht]

open Classical in
theorem stlFlagsLoop_getD (resid : List ℚ → List ℝ) (P : List Row)
    (i : ℕ) (hi : i < P.length) :
    (stlFlagsLoop resid P).getD i 0 =
      if ∃ f ∈ features, stlCond resid P f i then 1 else 0 := by
  rw [stlFlagsLoop, stlFold_getD resid P i hi features, getD_replicate_zero]

theorem stlFlagsLoop_getD_le_one (resid : List ℚ → List ℝ) (P : List Row)
    (i : ℕ) (hi : i < P.length) :
    (stlFlagsLoop resid P).getD i 0 ≤ 1 := by
  rw [stlFlagsLoop_getD resid P i hi]
  split <;> simp

theorem stlDetect_ok (resid : List ℚ → List ℝ) (P : List Row)
    (h8 : 8 ≤ P.length) :
    stlDetect resid P = .ok (stlFlagsLoop resid P) := by
  rw [stlDetect, if_neg (by omega)]

theorem loadAndModel_ok (iso : ℕ → List (List ℝ) → List ℤ)
    (resid : List ℚ → List ℝ) (bounds : List (ℕ × ℚ) → List ℚ × List ℚ)
    (P : List Row) (h8 : 8 ≤ P.length) :
    loadAndModel iso resid bounds P = .ok (outTable iso resid bounds P) := by
  rw [loadAndModel, pipelineFull, stlDetect_ok resid P h8]
  rfl

theorem outTable_getD (iso : ℕ → List (List ℝ) → List ℤ)
    (resid : List ℚ → List ℝ) (bounds : List (ℕ × ℚ) → List ℚ × List ℚ)
    (P : List Row) (i : ℕ) (hi : i < P.length) :
    (outTable iso resid bounds P).getD i default =
      dropRaw ⟨P.getD i default, (isoRawLabels iso P).getD i 1,
        ((isoRawLabels iso P).map isoFlagOf).getD i 0,
        (stlFlagsLoop resid P).getD i 0,
        (prophetFlags bounds P).getD i 0,
        ((isoRawLabels iso P).map isoFlagOf).getD i 0 +
          (stlFlagsLoop resid P).getD i 0 +
          (prophetFlags bounds P).getD i 0⟩ := by
  rw [outTable, buildRows, List.map_map, getD_range_map, if_pos hi]
  rfl

theorem outTable_length (iso : ℕ → List (List ℝ) → List ℤ)
    (resid : List ℚ → List ℝ) (bounds : List (ℕ × ℚ) → List ℚ × List ℚ)
    (P : List Row) :
    (outTable iso resid bounds P).length = P.length := by
  rw [outTable, buildRows]
  simp

/-! Claim theorems. -/

/-- Claim C1: in the returned table, `anomaly_count` of every period
equals the exact sum of the three flags `anomaly_isoforest + anomaly_stl
+ anomaly_prophet` of that period, and, since each flag is 0 or 1, it
lies in {0, 1, 2, 3} (`app.py` lines 104-106). -/
theorem C1_anomaly_count_is_sum_of_flags
    (iso : ℕ → List (List ℝ) → List ℤ) (resid : List ℚ → List ℝ)
    (bounds : List (ℕ × ℚ) → List ℚ × List ℚ) (P : List Row)
    (h8 : 8 ≤ P.length) (i : ℕ) (hi : i < P.length) :
    loadAndModel iso resid bounds P = .ok (outTable iso resid bounds P) ∧
    ((outTable iso resid bounds P).getD i default).anomaly_count =
      ((outTable iso resid bounds P).getD i default).anomaly_isoforest +
        ((outTable iso resid bounds P).getD i default).anomaly_stl +
        ((outTable iso resid bounds P).getD i default).anomaly_prophet ∧
    ((outTable iso resid bounds P).getD i default).anomaly_count ≤ 3 := by
  refine ⟨loadAndModel_ok iso resid bounds P h8, ?_, ?_⟩
  · rw [outTable_getD iso resid bounds P i hi]
    rfl
  · rw [outTable_getD iso resid bounds P i hi]
    have h1 := isoFlags_getD_le_one (isoRawLabels iso P) i
    have h2 := stlFlagsLoop_getD_le_one resid P i hi
    have h3 := prophetFlags_getD_le_one bounds P i
    show ((isoRawLabels iso P).map isoFlagOf).getD i 0 +
        (stlFlagsLoop resid P).getD i 0 +
        (prophetFlags bounds P).getD i 0 ≤ 3
    omega

/-- Witness for C1 at a concrete eight-quarter panel with concrete
detector fits, period 0. -/
theorem C1_anomaly_count_is_sum_of_flags_witness :
    loadAndModel isoAllNormal residZero boundsWide P8 =
      .ok (outTable isoAllNormal residZero boundsWide P8) ∧
    ((outTable isoAllNormal residZero boundsWide P8).getD 0
        default).anomaly_count =
      ((outTable isoAllNormal residZero boundsWide P8).getD 0
          default).anomaly_isoforest +
        ((outTable isoAllNormal residZero boundsWide P8).getD 0
            default).anomaly_stl +
        ((outTable isoAllNormal residZero boundsWide P8).getD 0
            default).anomaly_prophet ∧
    ((outTable isoAllNormal residZero boundsWide P8).getD 0
        default).anomaly_count ≤ 3 :=
  C1_anomaly_count_is_sum_of_flags isoAllNormal residZero boundsWide P8
    (by decide) 0 (by decide)

/-- Claim C2: the consensus view `df_consensus` (`app.py` line 209) holds
exactly the rows of the output table with `anomaly_count > 1`, and its
size never exceeds the number of flagged rows (`anomaly_count > 0`,
`app.py` line 250). -/
theorem C2_consensus_subset_of_flagged (out : List OutRow) :
    (∀ r : OutRow, r ∈ dfConsensus out ↔ r ∈ out ∧ 1 < r.anomaly_count) ∧
    (dfConsensus out).length ≤ (dfFlagged out).length := by
  constructor
  · intro r
    simp [dfConsensus, List.mem_filter]
  · refine (List.monotone_filter_right out ?_).length_le
    intro a ha
    simp only [decide_eq_true_eq] at ha ⊢
    omega

/-- Claim C3: on a panel long enough for STL, the decomposition
detector's flag at a period is 1 if and only if for at least one of the
four monitored fields the absolute STL residual at that period strictly
exceeds 2.5 times the sample standard deviation of that field's full
residual series — the per-field tests OR-ed by the loop of `app.py`
lines 71-79. -/
theorem C3_stl_flag_iff_residual_outlier (resid : List ℚ → List ℝ)
    (P : List Row) (h8 : 8 ≤ P.length) (i : ℕ) (hi : i < P.length) :
    stlDetect resid P = .ok (stlFlagsLoop resid P) ∧
    ((stlFlagsLoop resid P).getD i 0 = 1 ↔
      ∃ f ∈ features, |(stlResidOf resid P f).getD i 0| >
        2.5 * sampleStd (stlResidOf resid P f)) := by
  refine ⟨stlDetect_ok resid P h8, ?_⟩
  rw [stlFlagsLoop_getD resid P i hi]
  by_cases h : ∃ f ∈ features, stlCond resid P f i
  · rw [if_pos h]
    exact iff_of_true rfl h
  · rw [if_neg h]
    exact iff_of_false (by simp) h

/-- Witness for C3 at a concrete eight-quarter panel whose STL residual
is identically zero, period 0. -/
theorem C3_stl_flag_iff_residual_outlier_witness :
    stlDetect residZero P8 = .ok (stlFlagsLoop residZero P8) ∧
    ((stlFlagsLoop residZero P8).getD 0 0 = 1 ↔
      ∃ f ∈ features, |(stlResidOf residZero P8 f).getD 0 0| >
        2.5 * sampleStd (stlResidOf residZero P8 f)) :=
  C3_stl_flag_iff_residual_outlier residZero P8 (by decide) 0 (by decide)

/-- Claim C4: the forecast-deviation flag at a period is 1 if and only if
the realised gdp value is strictly below the in-sample lower bound or
strictly above the upper bound (`app.py` lines 98-101); in particular,
when the interval is proper, a value exactly equal to one of its bounds
is not flagged. -/
theorem C4_prophet_flag_iff_outside_interval
    (bounds : List (ℕ × ℚ) → List ℚ × List ℚ) (P : List Row) (i : ℕ)
    (hiP : i < P.length) :
    ((prophetFlags bounds P).getD i 0 = 1 ↔
      ((P.getD i default).gdp <
          (bounds (P.map fun r => (r.date, r.gdp))).1.getD i 0 ∨
        (P.getD i default).gdp >
          (bounds (P.map fun r => (r.date, r.gdp))).2.getD i 0)) ∧
    ((bounds (P.map fun r => (r.date, r.gdp))).1.getD i 0 ≤
        (bounds (P.map fun r => (r.date, r.gdp))).2.getD i 0 →
      ((P.getD i default).gdp =
          (bounds (P.map fun r => (r.date, r.gdp))).1.getD i 0 ∨
        (P.getD i default).gdp =
          (bounds (P.map fun r => (r.date, r.gdp))).2.getD i 0) →
      (prophetFlags bounds P).getD i 0 = 0) := by
  have hg : (prophetFlags bounds P).getD i 0 =
      if (P.getD i default).gdp <
           (bounds (P.map fun r => (r.date, r.gdp))).1.getD i 0 ∨
         (P.getD i default).gdp >
           (bounds (P.map fun r => (r.date, r.gdp))).2.getD i 0
      then 1 else 0 := by
    rw [prophetFlags, getD_range_map, if_pos hiP]
  constructor
  · rw [hg]
    by_cases h : (P.getD i default).gdp <
        (bounds (P.map fun r => (r.date, r.gdp))).1.getD i 0 ∨
      (P.getD i default).gdp >
        (bounds (P.map fun r => (r.date, r.gdp))).2.getD i 0
    · rw [if_pos h]
      exact iff_of_true rfl h
    · rw [if_neg h]
      exact iff_of_false (by simp) h
  · intro hle heq
    rw [hg, if_neg ?_]
    rintro (hlt | hgt)
    · rcases heq with he | he
      · exact absurd hlt (by rw [he]; exact lt_irrefl _)
      · exact absurd hlt (by rw [he]; exact not_lt.mpr hle)
    · rcases heq with he | he
      · exact absurd hgt (by rw [he]; exact not_lt.mpr hle)
      · exact absurd hgt (by rw [he]; exact lt_irrefl _)

/-- Witness for C4 at a concrete panel whose lower bound equals the
realised gdp exactly: the flag is determined by the strict comparisons,
and the boundary value is not flagged. -/
theorem C4_prophet_flag_iff_outside_interval_witness :
    ((prophetFlags boundsTouchLower pConst).getD 0 0 = 1 ↔
      ((pConst.getD 0 default).gdp <
          (boundsTouchLower (pConst.map fun r => (r.date, r.gdp))).1.getD 0 0 ∨
        (pConst.getD 0 default).gdp >
          (boundsTouchLower (pConst.map fun r => (r.date, r.gdp))).2.getD 0 0)) ∧
    ((boundsTouchLower (pConst.map fun r => (r.date, r.gdp))).1.getD 0 0 ≤
        (boundsTouchLower (pConst.map fun r => (r.date, r.gdp))).2.getD 0 0 →
      ((pConst.getD 0 default).gdp =
          (boundsTouchLower (pConst.map fun r => (r.date, r.gdp))).1.getD 0 0 ∨
        (pConst.getD 0 default).gdp =
          (boundsTouchLower (pConst.map fun r => (r.date, r.gdp))).2.getD 0 0) →
      (prophetFlags boundsTouchLower pConst).getD 0 0 = 0) :=
  C4_prophet_flag_iff_outside_interval boundsTouchLower pConst 0 (by decide)

/-- Claim C8: with fewer than 8 periods (two full seasonal cycles at
period 4), the STL detector fails with the insufficient-history error —
the guard of the statsmodels STL constructor — and the whole pipeline
propagates that failure instead of producing flags. -/
theorem C8_short_history_fails (resid : List ℚ → List ℝ) (P : List Row)
    (hshort : P.length < 8) :
    stlDetect resid P = .error .insufficientHistory ∧
    ∀ (iso : ℕ → List (List ℝ) → List ℤ)
      (bounds : List (ℕ × ℚ) → List ℚ × List ℚ),
      pipelineFull iso resid bounds P = .error .insufficientHistory := by
  have h : stlDetect resid P = .error .insufficientHistory := by
    rw [stlDetect, if_pos (by omega)]
  exact ⟨h, fun iso bounds => by rw [pipelineFull, h]; rfl⟩

/-- Witness for C8 at a concrete three-quarter panel. -/
theorem C8_short_history_fails_witness :
    stlDetect residZero pConst = .error .insufficientHistory ∧
    ∀ (iso : ℕ → List (List ℝ) → List ℤ)
      (bounds : List (ℕ × ℚ) → List ℚ × List ℚ),
      pipelineFull iso residZero bounds pConst =
        .error .insufficientHistory :=
  C8_short_history_fails residZero pConst (by decide)

/-- Claim C9: two runs of the multivariate detector on identical panels
with the same seed produce identical flag columns.  In this embedding the
fitted scorer with a fixed `random_state` (sklearn's documented
reproducibility) is a pure function of the seed and the standardised
matrix, so the whole detector is a pure function of (seed, panel) and
two-run determinism holds. -/
theorem C9_isoforest_two_run_determinism
    (iso : ℕ → List (List ℝ) → List ℤ) (seed : ℕ) (P Q : List Row)
    (h : P = Q) :
    isoDetFlags iso seed P = isoDetFlags iso seed Q := by
  rw [h]

/-- Witness for C9: two runs on the same concrete panel with seed 42. -/
theorem C9_isoforest_two_run_determinism_witness :
    isoDetFlags isoAllNormal 42 pConst = isoDetFlags isoAllNormal 42 pConst :=
  C9_isoforest_two_run_determinism isoAllNormal 42 pConst pConst rfl

/-- Claim C10: the pipeline is frame-preserving on the economic fields:
every output row keeps the input period's date, gdp, corporate_credit,
household_credit and total_debt unchanged, carries exactly the three flag
columns (equal to the three detectors' columns) plus `anomaly_count`, and
the returned table is the full table with the intermediate raw
isolation-forest label column dropped (`app.py` line 109) — the `OutRow`
shape has no raw-label field. -/
theorem C10_output_preserves_fields_and_drops_raw
    (iso : ℕ → List (List ℝ) → List ℤ) (resid : List ℚ → List ℝ)
    (bounds : List (ℕ × ℚ) → List ℚ × List ℚ) (P : List Row)
    (h8 : 8 ≤ P.length) (i : ℕ) (hi : i < P.length) :
    loadAndModel iso resid bounds P = .ok (outTable iso resid bounds P) ∧
    (outTable iso resid bounds P).length = P.length ∧
    ((outTable iso resid bounds P).getD i default).date =
      (P.getD i default).date ∧
    ((outTable iso resid bounds P).getD i default).gdp =
      (P.getD i default).gdp ∧
    ((outTable iso resid bounds P).getD i default).corporate_credit =
      (P.getD i default).corporate_credit ∧
    ((outTable iso resid bounds P).getD i default).household_credit =
      (P.getD i default).household_credit ∧
    ((outTable iso resid bounds P).getD i default).total_debt =
      (P.getD i default).total_debt ∧
    ((outTable iso resid bounds P).getD i default).anomaly_isoforest =
      ((isoRawLabels iso P).map isoFlagOf).getD i 0 ∧
    ((outTable iso resid bounds P).getD i default).anomaly_stl =
      (stlFlagsLoop resid P).getD i 0 ∧
    ((outTable iso resid bounds P).getD i default).anomaly_prophet =
      (prophetFlags bounds P).getD i 0 ∧
    outTable iso resid bounds P =
      (buildRows P (isoRawLabels iso P) (stlFlagsLoop resid P)
        (prophetFlags bounds P)).map dropRaw := by
  have ho := outTable_getD iso resid bounds P i hi
  refine ⟨loadAndModel_ok iso resid bounds P h8,
    outTable_length iso resid bounds P, ?_, ?_, ?_, ?_, ?_, ?_, ?_, ?_, rfl⟩
  all_goals (rw [ho]; rfl)

/-- Witness for C10 at a concrete eight-quarter panel, period 0. -/
theorem C10_output_preserves_fields_and_drops_raw_witness :
    loadAndModel isoAllNormal residZero boundsWide P8 =
      .ok (outTable isoAllNormal residZero boundsWide P8) ∧
    (outTable isoAllNormal residZero boundsWide P8).length = P8.length ∧
    ((outTable isoAllNormal residZero boundsWide P8).getD 0 default).date =
      (P8.getD 0 default).date ∧
    ((outTable isoAllNormal residZero boundsWide P8).getD 0 default).gdp =
      (P8.getD 0 default).gdp ∧
    ((outTable isoAllNormal residZero boundsWide P8).getD 0
        default).corporate_credit =
      (P8.getD 0 default).corporate_credit ∧
    ((outTable isoAllNormal residZero boundsWide P8).getD 0
        default).household_credit =
      (P8.getD 0 default).household_credit ∧
    ((outTable isoAllNormal residZero boundsWide P8).getD 0
        default).total_debt =
      (P8.getD 0 default).total_debt ∧
    ((outTable isoAllNormal residZero boundsWide P8).getD 0
        default).anomaly_isoforest =
      ((isoRawLabels isoAllNormal P8).map isoFlagOf).getD 0 0 ∧
    ((outTable isoAllNormal residZero boundsWide P8).getD 0
        default).anomaly_stl =
      (stlFlagsLoop residZero P8).getD 0 0 ∧
    ((outTable isoAllNormal residZero boundsWide P8).getD 0
        default).anomaly_prophet =
      (prophetFlags boundsWide P8).getD 0 0 ∧
    outTable isoAllNormal residZero boundsWide P8 =
      (buildRows P8 (isoRawLabels isoAllNormal P8)
        (stlFlagsLoop residZero P8)
        (prophetFlags boundsWide P8)).map dropRaw :=
  C10_output_preserves_fields_and_drops_raw isoAllNormal residZero
    boundsWide P8 (by decide) 0 (by decide)

/-- Claim C5, evaluated at the failing input: the view built by
`app.py` lines 250-265 — filter, `sort_values("anomaly_count",
ascending=False)`, then `.sort_index()` — applied to a flagged table
whose earlier date has count 1 and later date has count 2, returns the
rows in date order with the count-1 row first, which violates the claimed
(count descending, date ascending) order already at its first adjacent
pair.  The second sort, on the unique date index, discards the count
ordering established by the first sort; the code's own comment ("Sort by
highest consensus first, then by date") promises the claimed order. -/
theorem C5_view_order_code_evaluation :
    dfAnomaliesView tabTwo = [rowEarlyLow, rowLateHigh] ∧
    rowEarlyLow.anomaly_count < rowLateHigh.anomaly_count ∧
    ¬ claimOrder rowEarlyLow rowLateHigh := by decide

/-- Claim C6, counterexample: a raw source missing the required
`GDP_YoY_Growth` column and carrying an unmapped `Unemployment` column
passes the load step of `app.py` lines 34-50 without any failure — the
rename is silent, the unmapped column is retained (not dropped), no
canonical gdp column is produced, and an unparsable date index is kept as
raw strings rather than raising; only the later feature selection
`df[features]` (line 57) fails. -/
theorem C6_loader_counterexample :
    (loadStep rawMissingGdp).map Prod.fst =
      [canonCorpName, canonHouseName, canonDebtName, extraColName] ∧
    canonGdpName ∉ (loadStep rawMissingGdp).map Prod.fst ∧
    extraColName ∈ (loadStep rawMissingGdp).map Prod.fst ∧
    parseIndexLenient noParse badCells = Sum.inr badCells ∧
    selectCols (loadStep rawMissingGdp) canonFeatureNames =
      .error .keyNotFound := by
  refine ⟨by decide, by decide, by decide, ?_, ?_⟩
  · rfl
  · rfl

/-- Claim C6 (amended): the load step of `app.py` lines 34-50 never
fails: every input column is kept, with its name passed through the
static mapping and unmapped names left unchanged; a date index containing
an unparsable cell is kept as raw strings without error; and a source
whose rename produces no canonical gdp column only fails later, when the
multivariate detector's column selection `df[features]` raises a
KeyError. -/
theorem C6_loader_is_silent_rename (raw : List (String × List ℚ))
    (parse : String → Option ℕ) (cells : List String) (c : String)
    (hc : c ∈ cells) (hbad : parse c = none)
    (hmiss : canonGdpName ∉ (loadStep raw).map Prod.fst) :
    (loadStep raw).map Prod.fst = raw.map (fun p => applyRename p.1) ∧
    (loadStep raw).length = raw.length ∧
    parseIndexLenient parse cells = Sum.inr cells ∧
    selectCols (loadStep raw) canonFeatureNames = .error .keyNotFound := by
  refine ⟨?_, ?_, ?_, ?_⟩
  · rw [loadStep, List.map_map]
    rfl
  · rw [loadStep]
    simp
  · have hall : ¬ (cells.all fun d => (parse d).isSome) = true := by
      rw [List.all_eq_true]
      intro hall
      have hc2 := hall c hc
      rw [hbad] at hc2
      simp at hc2
    rw [parseIndexLenient, if_neg hall]
  · have hnot : ¬ (canonFeatureNames.all fun n =>
        ((loadStep raw).map Prod.fst).contains n) = true := by
      rw [List.all_eq_true]
      intro hall
      have hg := hall canonGdpName (by decide)
      exact hmiss (by simpa using hg)
    rw [selectCols, if_neg hnot]

/-- Witness for the amended C6 at the concrete gdp-less source and the
unparsable index. -/
theorem C6_loader_is_silent_rename_witness :
    (loadStep rawMissingGdp).map Prod.fst =
      rawMissingGdp.map (fun p => applyRename p.1) ∧
    (loadStep rawMissingGdp).length = rawMissingGdp.length ∧
    parseIndexLenient noParse badCells = Sum.inr badCells ∧
    selectCols (loadStep rawMissingGdp) canonFeatureNames =
      .error .keyNotFound :=
  C6_loader_is_silent_rename rawMissingGdp noParse badCells
    (String.mk ['n', 'o', 't', '-', 'a', '-', 'd', 'a', 't', 'e'])
    (by decide) rfl (by decide)

/-- Claim C7, counterexample: a panel whose gdp field has zero variance
passes standardisation without any failure — sklearn's StandardScaler
replaces a zero scale by 1, so the constant column is centred to the
all-zero column — and the multivariate detector still produces a flag
column. -/
theorem C7_zero_variance_counterexample :
    popVar (colOf pConst Field.gdp) = 0 ∧
    standardizeCol (colOf pConst Field.gdp) = [0, 0, 0] ∧
    isoDetFlags isoAllNormal 42 pConst = [0, 0, 0] := by
  have hc : colOf pConst Field.gdp = [(5 : ℚ), 5, 5] := rfl
  have hm : qmean [(5 : ℚ), 5, 5] = 5 := by norm_num [qmean]
  have hv : popVar [(5 : ℚ), 5, 5] = 0 := by norm_num [popVar, qmean]
  refine ⟨by rw [hc, hv], ?_, ?_⟩
  · rw [standardizeCol, scaleOf, hc, hv, hm]
    norm_num
  · have hlen : (scaledMatrix pConst).length = 3 := by
      simp [scaledMatrix, pConst]
    simp only [isoDetFlags, isoAllNormal, List.map_map]
    have hfn : (isoFlagOf ∘ fun _ : List ℝ => (1 : ℤ)) = fun _ => (0 : ℕ) :=
      funext fun _ => rfl
    rw [hfn, List.map_const', hlen]
    rfl

/-- Claim C7 (amended): the standardisation step never fails on a
zero-variance field: a nonempty constant column has zero variance, its
scale is replaced by 1 (sklearn `_handle_zeros_in_scale`), and the
standardised column is identically zero, so the detector proceeds and
flags are still produced. -/
theorem C7_zero_variance_standardizes_to_zero (xs : List ℚ) (c : ℚ)
    (hne : xs ≠ []) (hconst : ∀ x ∈ xs, x = c) :
    popVar xs = 0 ∧ standardizeCol xs = List.replicate xs.length 0 := by
  have hn : xs.length ≠ 0 := by simpa using hne
  have hmean : qmean xs = c := by
    have hrep : xs = List.replicate xs.length c :=
      List.eq_replicate_length.mpr hconst
    rw [qmean]
    conv_lhs => rw [hrep]
    rw [List.sum_replicate, List.length_replicate, nsmul_eq_mul, mul_comm,
      mul_div_assoc, div_self (Nat.cast_ne_zero.mpr hn), mul_one]
  have hvar : popVar xs = 0 := by
    rw [popVar]
    have hz : (xs.map fun x => (x - qmean xs) ^ 2) =
        List.replicate xs.length 0 := by
      refine List.eq_replicate_iff.mpr ⟨by simp, ?_⟩
      intro b hb
      rcases List.mem_map.mp hb with ⟨x, hx, rfl⟩
      rw [hconst x hx, hmean]
      ring
    rw [hz, List.sum_replicate, smul_zero, zero_div]
  refine ⟨hvar, ?_⟩
  rw [standardizeCol, scaleOf, hvar, hmean]
  have hs : Real.sqrt ((0 : ℚ) : ℝ) = 0 := by
    rw [Rat.cast_zero, Real.sqrt_zero]
  rw [hs, if_pos rfl]
  refine List.eq_replicate_iff.mpr ⟨List.length_map xs _, ?_⟩
  intro b hb
  rcases List.mem_map.mp hb with ⟨x, hx, rfl⟩
  rw [hconst x hx]
  norm_num

/-- Witness for the amended C7 at the concrete constant column. -/
theorem C7_zero_variance_standardizes_to_zero_witness :
    popVar constCol = 0 ∧
    standardizeCol constCol = List.replicate constCol.length 0 :=
  C7_zero_variance_standardizes_to_zero constCol 5 (by decide) (by decide)

end AnomalyApp
